import Mathlib

/-!
# Verification of the visionnest detection/annotation core

Shallow embedding of the `visionnest` Python package:
* `visionnest/image/colors.py`        — `Colors` (RGB value type, hex conversion)
* `visionnest/image/color_palette.py` — `ColorPalette`
* `visionnest/detection/convertor.py` — coordinate conversions
* `visionnest/detection/core.py`      — `Detections` container
* `visionnest/annotators/boundingbox.py` — `BoxAnnotator.annotate`

Python exceptions are modelled with `Except PyErr`; numbers are `Int`/`ℚ`;
numpy arrays are lists.  Each definition mirrors one source function.
-/

namespace VisionNest

/-- Python exception kinds that the modelled code can raise. -/
inductive PyErr where
  | typeError
  | valueError
  | attributeError
  | indexError
  | nameError
  deriving Repr, DecidableEq

/-! ## `visionnest/image/colors.py` -/

/-- `Colors` dataclass: an RGB triple (fields `r`, `g`, `b`). -/
structure Colors where
  r : Int
  g : Int
  b : Int
  deriving Repr, DecidableEq

/-- Value of one hex digit, as Python `int(_, 16)` accepts it
(digits, lowercase and uppercase letters). -/
def hexDigitVal (c : Char) : Option Nat :=
  if '0' ≤ c ∧ c ≤ '9' then some (c.toNat - '0'.toNat)
  else if 'a' ≤ c ∧ c ≤ 'f' then some (c.toNat - 'a'.toNat + 10)
  else if 'A' ≤ c ∧ c ≤ 'F' then some (c.toNat - 'A'.toNat + 10)
  else none

/-- Python `int(s, 16)` on a two-character slice `hex_code[i:i+2]`:
succeeds iff both characters are hex digits. -/
def parseHexByte (c1 c2 : Char) : Except PyErr Int :=
  match hexDigitVal c1, hexDigitVal c2 with
  | some a, some b => .ok (Int.ofNat (16 * a + b))
  | _, _ => .error .valueError

/-- `Colors.hex_to_rgb`: strip leading `#` marks (Python `lstrip('#')`),
require exactly 6 remaining characters (else `ValueError`), then parse the
three two-digit groups at offsets 0, 2, 4. -/
def Colors.hex_to_rgb (hex_code : String) : Except PyErr Colors :=
  let t := hex_code.toList.dropWhile (· = '#')
  match t with
  | [a, b, c, d, e, f] => do
      let r ← parseHexByte a b
      let g ← parseHexByte c d
      let bl ← parseHexByte e f
      pure ⟨r, g, bl⟩
  | _ => .error .valueError

/-- `Colors.rgb_to_hex`: declared as a zero-argument `@staticmethod` whose
body reads `self.r` — `self` is not in scope, so every call raises
`NameError` before producing a string. -/
def Colors.rgb_to_hex : Except PyErr String := .error .nameError

/-- `Colors.to_hex`: evaluates `self.rgb_to_hex(self.rgb)`; the attribute
access `self.rgb` fails (the dataclass has only `r`, `g`, `b`), so every
call raises `AttributeError`. -/
def Colors.to_hex (_ : Colors) : Except PyErr String := .error .attributeError

/-! ## `visionnest/detection/convertor.py`

Box coordinates are rationals (Python floats are exact on these dyadic
computations; the claims are about the algebra, not float rounding). -/

/-- A box `(x1, y1, x2, y2)`. -/
abbrev Box4 := ℚ × ℚ × ℚ × ℚ

/-- Python `int(q)`: truncation toward zero. -/
def pyInt (q : ℚ) : ℤ :=
  if 0 ≤ q then ⌊q⌋ else ⌈q⌉

/-- `xyxy2xyxyn(xyxy, scale)` with `scale = (height, width)`:
x-coordinates divided by width, y-coordinates by height. -/
def xyxy2xyxyn (xyxy : Box4) (scale : ℚ × ℚ) : Box4 :=
  (xyxy.1 / scale.2, xyxy.2.1 / scale.1, xyxy.2.2.1 / scale.2, xyxy.2.2.2 / scale.1)

/-- `xyxyn2xyxy(xyxyn, scale)` exactly as written in the source: the four
components are `int(xyxyn[0]*scale[1])`, `int(xyxyn[1]*scale[0])`,
`int(xyxyn[1]*scale[1])`, `int(xyxyn[2]*scale[0])` — note the repeated
index 1 and the final index 2. -/
def xyxyn2xyxy (xyxyn : Box4) (scale : ℚ × ℚ) : ℤ × ℤ × ℤ × ℤ :=
  ( pyInt (xyxyn.1 * scale.2),
    pyInt (xyxyn.2.1 * scale.1),
    pyInt (xyxyn.2.1 * scale.2),
    pyInt (xyxyn.2.2.1 * scale.1) )

/-- `xyxy2xywh`: corner form to center form,
`(x1 + w/2, y1 + h/2, w, h)` with `w = x2-x1`, `h = y2-y1`. -/
def xyxy2xywh (xyxy : Box4) : Box4 :=
  let w := xyxy.2.2.1 - xyxy.1
  let h := xyxy.2.2.2 - xyxy.2.1
  (xyxy.1 + w / 2, xyxy.2.1 + h / 2, w, h)

/-- `xywh2xyxy`: center form back to corner form. -/
def xywh2xyxy (xywh : Box4) : Box4 :=
  ( xywh.1 - xywh.2.2.1 / 2,
    xywh.2.1 - xywh.2.2.2 / 2,
    xywh.1 + xywh.2.2.1 / 2,
    xywh.2.1 + xywh.2.2.2 / 2 )

/-- `poly2xyxy(poly)`: `(min(xs), min(ys), max(xs), max(ys))` over the
vertices.  On an empty vertex sequence the numpy column indexing /
`min` of an empty sequence fails, modelled as `none`. -/
def poly2xyxy (poly : List (ℤ × ℤ)) : Option (ℤ × ℤ × ℤ × ℤ) :=
  match (poly.map Prod.fst).min?, (poly.map Prod.snd).min?,
        (poly.map Prod.fst).max?, (poly.map Prod.snd).max? with
  | some a, some b, some c, some d => some (a, b, c, d)
  | _, _, _, _ => none

/-! ## `visionnest/image/color_palette.py` -/

/-- The runtime shape of a value handed to `ColorPalette.add_color` /
`override_color` / `BoxAnnotator.annotate(colors=...)`: a 3-tuple of ints,
a hex string, a `Colors` instance, a Python list, a bare int, or anything
else. -/
inductive ColorInput where
  | rgb (r g b : Int)
  | hex (s : String)
  | col (c : Colors)
  | list (elems : List ColorInput)
  | intVal (n : Int)
  | other
  deriving Repr

/-- `ColorPalette.add_color(color_code)`: a tuple is unpacked into
`Colors(r,g,b)` and appended; a string goes through `Colors.hex_to_rgb`
(whose `ValueError` propagates); a `Colors` is appended as-is; anything
else — in particular a Python *list* — only logs a warning and leaves the
palette unchanged.  Returns the new color list and whether the
unsupported-input warning was logged. -/
def add_color (colors : List Colors) : ColorInput → Except PyErr (List Colors × Bool)
  | .rgb r g b => .ok (colors ++ [⟨r, g, b⟩], false)
  | .hex s => do
      let c ← Colors.hex_to_rgb s
      pure (colors ++ [c], false)
  | .col c => .ok (colors ++ [c], false)
  | .list _ => .ok (colors, true)
  | .intVal _ => .ok (colors, true)
  | .other => .ok (colors, true)

/-- The `basic_palette` literal of `ColorPalette._init_standard_palettes`. -/
def basic_palette : List (Int × Int × Int) :=
  [ (255, 0, 0), (0, 255, 0), (0, 0, 255),
    (255, 255, 0), (0, 255, 255), (255, 0, 255),
    (128, 128, 128), (163, 81, 251), (255, 64, 64),
    (255, 161, 160), (255, 118, 51), (255, 182, 51),
    (209, 212, 53), (76, 251, 18), (148, 207, 26),
    (64, 222, 138), (27, 150, 64), (0, 214, 193),
    (46, 156, 170), (0, 196, 255), (54, 71, 151),
    (102, 117, 255), (0, 25, 239), (134, 58, 255),
    (83, 0, 135), (205, 58, 255), (255, 151, 202),
    (255, 57, 201), (255, 0, 0), (230, 25, 75),
    (60, 180, 75), (255, 225, 25), (0, 130, 200),
    (245, 130, 49), (145, 30, 180), (70, 240, 240),
    (240, 50, 230), (210, 245, 60), (250, 190, 190),
    (0, 128, 128), (230, 190, 255), (170, 110, 40),
    (255, 250, 200), (128, 0, 0), (170, 255, 195) ]

/-- `ColorPalette.__init__`: starts from `[]` and feeds every
`basic_palette` tuple through `add_color` (via `add_palette`); each is a
3-tuple, so each appends one `Colors`. -/
def ColorPalette.init : List Colors :=
  basic_palette.foldl (fun acc t => acc ++ [⟨t.1, t.2.1, t.2.2⟩]) []

/-- `ColorPalette.get_color_by_index(index)`: raises `IndexError` when
`index < 0` or `index >= len(self.colors)`, else returns `colors[index]`. -/
def get_color_by_index (colors : List Colors) (index : Int) : Except PyErr Colors :=
  if index < 0 ∨ (colors.length : Int) ≤ index then .error .indexError
  else
    match colors.get? index.toNat with
    | some c => .ok c
    | none => .error .indexError

/-- `ColorPalette.override_color(colors)`: converts each entry by the same
per-entry rules as `add_color` into `lookup_colors` (unsupported entries
are skipped with a warning, a bad hex string raises), then, if at least one
entry converted, prepends `lookup_colors` to the existing palette. -/
def override_color (colors : List Colors) (entries : List ColorInput) :
    Except PyErr (List Colors) := do
  let lookup ← entries.foldlM (fun (acc : List Colors) e =>
    match e with
    | .rgb r g b => pure (acc ++ [⟨r, g, b⟩])
    | .hex s => do
        let c ← Colors.hex_to_rgb s
        pure (acc ++ [c])
    | .col c => pure (acc ++ [c])
    | _ => pure acc) []
  if lookup.length ≠ 0 then pure (lookup ++ colors) else pure colors

/-! ## `visionnest/detection/core.py` -/

/-- One polygon: a vertex list. -/
abbrev Poly := List (Int × Int)

/-- The `Detections` dataclass: `xyxy` is the mandatory N×4 box array, the
other attributes are optional parallel arrays (numpy arrays modelled as
lists, absent attributes as `none`). -/
structure Detections where
  xyxy : List (Int × Int × Int × Int)
  poly : Option (List Poly) := none
  confidence : Option (List ℚ) := none
  class_id : Option (List Int) := none
  tracker_id : Option (List Int) := none
  object_length : Option (List ℚ) := none
  object_area : Option (List ℚ) := none
  deriving Repr

/-- Row selection `arr[index]` for a numpy array indexed by an integer
list: every index must be in range (numpy raises otherwise, modelled as
`none`); the result keeps the order of the index list. -/
def selectRows {α : Type} (l : List α) : List Nat → Option (List α)
  | [] => some []
  | i :: is =>
    match l.get? i, selectRows l is with
    | some a, some r => some (a :: r)
    | _, _ => none

/-- The per-attribute expression of `__getitem__`:
`attr[index] if attr is not None else None`. -/
def selOpt {α : Type} (o : Option (List α)) (index : List Nat) :
    Option (Option (List α)) :=
  match o with
  | none => some none
  | some l => (selectRows l index).map some

/-- `Detections.__getitem__` with an index list: each present attribute is
row-selected by the index list, absent attributes stay `None`. -/
def Detections.getItem (d : Detections) (index : List Nat) : Option Detections := do
  let xyxy ← selectRows d.xyxy index
  let poly ← selOpt d.poly index
  let confidence ← selOpt d.confidence index
  let class_id ← selOpt d.class_id index
  let tracker_id ← selOpt d.tracker_id index
  let object_length ← selOpt d.object_length index
  let object_area ← selOpt d.object_area index
  pure ⟨xyxy, poly, confidence, class_id, tracker_id, object_length, object_area⟩

/-- Whether an optional attribute, when present, has the given length. -/
def optLenOk {α : Type} (o : Option (List α)) (n : Nat) : Bool :=
  match o with
  | none => true
  | some l => l.length == n

/-- The documented `Detections` invariant: every present optional
attribute has the same length as `xyxy`. -/
def Detections.invariant (d : Detections) : Bool :=
  optLenOk d.poly d.xyxy.length && optLenOk d.confidence d.xyxy.length &&
  optLenOk d.class_id d.xyxy.length && optLenOk d.tracker_id d.xyxy.length &&
  optLenOk d.object_length d.xyxy.length && optLenOk d.object_area d.xyxy.length

/-- Python `len(x)` on an optional array: `len(None)` raises `TypeError`. -/
def pyLenOpt {α : Type} : Option (List α) → Except PyErr Nat
  | none => .error .typeError
  | some l => .ok l.length

/-- Truthiness of an optional numpy array, as Python evaluates it:
`None` is falsy; an empty array is falsy; a one-element array has the
truth value of its element; a longer array raises `ValueError`
("truth value of an array with more than one element is ambiguous"). -/
def npTruthy {α : Type} (isZero : α → Bool) : Option (List α) → Except PyErr Bool
  | none => .ok false
  | some [] => .ok false
  | some [a] => .ok (!isZero a)
  | some (_ :: _ :: _) => .error .valueError

/-- `np.array_equal` on optional arrays: `array_equal(None, None)` is
`True` (both become the same 0-d object array); `None` against a real
array is `False` (shape mismatch); two arrays compare elementwise. -/
def npArrayEqual {α : Type} [DecidableEq α] : Option (List α) → Option (List α) → Bool
  | none, none => true
  | some a, some b => a = b
  | _, _ => false

/-- `Detections.__eq__`, statement by statement.  The outer `all([...])`
builds its five entries eagerly, left to right:
1. `np.array_equal(self.xyxy, other.xyxy)`;
2. `any([len(self.poly) and len(self.other.poly), np.array_equal(self.poly, other.poly)])`
   — `len(None)` raises `TypeError`; when `len(self.poly)` is non-zero the
   `and` evaluates `self.other`, which does not exist (`AttributeError`);
3. `any([len(self.class_id) and (other.class_id), np.array_equal(...)])`;
4. `any([(self.confidence) and (other.confidence), np.array_equal(...)])`;
5. the same for `tracker_id`. -/
def detEq (self other : Detections) : Except PyErr Bool := do
  let c1 : Bool := self.xyxy = other.xyxy
  let lp ← pyLenOpt self.poly
  let t2 ← if lp = 0 then pure false else (.error .attributeError : Except PyErr Bool)
  let c2 : Bool := t2 || npArrayEqual self.poly other.poly
  let lc ← pyLenOpt self.class_id
  let t3 ← if lc = 0 then pure false else npTruthy (· = 0) other.class_id
  let c3 : Bool := t3 || npArrayEqual self.class_id other.class_id
  let sc ← npTruthy (· = 0) self.confidence
  let t4 ← if sc then npTruthy (· = 0) other.confidence else pure false
  let c4 : Bool := t4 || npArrayEqual self.confidence other.confidence
  let st ← npTruthy (· = 0) self.tracker_id
  let t5 ← if st then npTruthy (· = 0) other.tracker_id else pure false
  let c5 : Bool := t5 || npArrayEqual self.tracker_id other.tracker_id
  pure (c1 && c2 && c3 && c4 && c5)

/-! ## `visionnest/annotators/boundingbox.py` -/

/-- An integer box, after `xyxy.astype(int)`. -/
abbrev BoxI := Int × Int × Int × Int

/-- One delegated draw operation (the external drawing backend calls that
`box_label` issues): the outline rectangle, and — when the label is
non-empty — the label pass (`put_text`, which itself draws the filled
background in the box color and then the text). -/
inductive Event where
  | rect (box : BoxI) (color : Colors)
  | label (text : String) (color : Colors) (txt : Option Colors)
  deriving Repr, DecidableEq

/-- `BoxAnnotator.box_label` on the `annotate` call path: `color` is
already a `Colors` (the `isinstance` str/tuple branches do not fire), the
outline rectangle is always drawn, and `put_text` runs only when `label`
is non-empty. -/
def box_label_events (box : BoxI) (label : String) (color : Colors)
    (txt : Option Colors) : List Event :=
  .rect box color :: (if label = "" then [] else [.label label color txt])

/-- One iteration of the `annotate` loop body, in source evaluation order:
`color_idx = detections.class_id[i]` (or the positional `i`), then the
`labels[i]` argument, then `color_palette.get_color_by_index(color_idx)`,
then the `box_label` call.  Any raise escapes to the `try` around the
loop. -/
def recordStep (cs : List Colors) (class_id : Option (List Int))
    (labels : Option (List String)) (txt : Option Colors)
    (i : Nat) (box : BoxI) : Except PyErr (List Event) := do
  let color_idx : Int ←
    match class_id with
    | some l =>
      match l.get? i with
      | some c => pure c
      | none => .error .indexError
    | none => pure (Int.ofNat i)
  let lab : String ←
    match labels with
    | some ls =>
      match ls.get? i with
      | some s => pure s
      | none => .error .indexError
    | none => pure ""
  let color ← get_color_by_index cs color_idx
  pure (box_label_events box lab color txt)

/-- The `for i, xyxy in enumerate(detections.xyxy)` loop inside the single
`try`: records are processed in order; the first raise is caught *outside*
the loop (`except ... logging.error`), so it discards all remaining
records.  Returns the issued events and whether the error branch ran. -/
def annotateLoop (cs : List Colors) (class_id : Option (List Int))
    (labels : Option (List String)) (txt : Option Colors) :
    Nat → List BoxI → List Event × Bool
  | _, [] => ([], false)
  | i, b :: rest =>
    match recordStep cs class_id labels txt i b with
    | .ok evs =>
      let (r, e) := annotateLoop cs class_id labels txt (i + 1) rest
      (evs ++ r, e)
    | .error _ => ([], true)

/-- Python `len(colors)` on the raw `colors` argument: defined for lists,
tuples and strings; `TypeError` for a `Colors` instance or an int. -/
def pyLenColorInput : ColorInput → Except PyErr Nat
  | .rgb _ _ _ => .ok 3
  | .hex s => .ok s.length
  | .list l => .ok l.length
  | .col _ => .error .typeError
  | .intVal _ => .error .typeError
  | .other => .error .typeError

/-- Outcome of one `annotate` call: which warnings were logged, the draw
events issued, and whether the loop-boundary `except` logged an error. -/
structure AnnotateResult where
  shortWarned : Bool
  unsupportedWarned : Bool
  events : List Event
  loopErrorLogged : Bool
  deriving Repr, DecidableEq

/-- `BoxAnnotator.annotate`: builds a fresh `ColorPalette`; when `colors`
is given, compares `len(colors)` with `len(detections)` (warning only) and
feeds the whole `colors` object to `add_color` — both outside the `try`,
so a raise there propagates to the caller; then runs the per-record loop
under the single `try/except`. -/
def annotate (detections : Detections) (labels : Option (List String))
    (colors : Option ColorInput) (txt_color : Option Colors) :
    Except PyErr AnnotateResult := do
  let palette := ColorPalette.init
  let (palette, shortWarned, unsupportedWarned) ←
    match colors with
    | none => pure (palette, false, false)
    | some cin => do
        let n ← pyLenColorInput cin
        let sw := decide (n < detections.xyxy.length)
        let (p, uw) ← add_color palette cin
        pure (p, sw, uw)
  let (evs, err) := annotateLoop palette detections.class_id labels txt_color 0 detections.xyxy
  pure ⟨shortWarned, unsupportedWarned, evs, err⟩

/-- The shapes of `add_color` input that can register an entry: a tuple,
a string, or a `Colors` instance. -/
def ColorInput.colorLike : ColorInput → Prop
  | .rgb _ _ _ => True
  | .hex _ => True
  | .col _ => True
  | _ => False

instance (inp : ColorInput) : Decidable inp.colorLike := by
  cases inp <;> simp [ColorInput.colorLike] <;> infer_instance

/-- Whether an `Except` result is a success. -/
def stepOk {α : Type} : Except PyErr α → Bool
  | .ok _ => true
  | .error _ => false

/-- Specification predicate for C6: `sel` is `orig` row-selected by
`index` — absent stays absent; present is selected in the order of
`index`, the entry at position `k` being the original entry at
`index[k]`. -/
def RowSelected {α : Type} (orig sel : Option (List α)) (index : List Nat) : Prop :=
  (orig = none → sel = none) ∧
  ∀ l, orig = some l → ∃ s, sel = some s ∧ s.length = index.length ∧
    ∀ k i, index.get? k = some i → s.get? k = l.get? i

/-- A small concrete `Detections` used to witness C6. -/
def sampleDet : Detections :=
  ⟨[(0, 0, 1, 1), (1, 1, 2, 2), (2, 2, 3, 3)], none, none, some [5, 6, 7], none, none, none⟩

/-- Concrete boxes for the C2 scenario (3 detections). -/
def c2Boxes : List BoxI := [(0, 0, 5, 5), (1, 1, 6, 6), (2, 2, 7, 7)]

/-- Concrete class ids for the C2 scenario. -/
def c2Cls : List Int := [0, 0, 1]

/-- Concrete caller-supplied color list for the C2 scenario (length 2 < 3). -/
def c2Colors : List ColorInput := [.col ⟨9, 9, 9⟩, .col ⟨8, 8, 8⟩]

/-- Concrete `Detections` for the C3 scenario: the middle record's class id
(100) is outside the 45-color default palette, so its palette lookup
raises inside the loop. -/
def c3Det : Detections :=
  ⟨[(0, 0, 5, 5), (1, 1, 6, 6), (2, 2, 7, 7)], none, none, some [0, 100, 0],
   none, none, none⟩

/-! ## Theorems -/

/-- **C1** (code_bug).  The claim: `d1 == d2` iff `boxes` are elementwise
equal and every optional attribute is mutually absent or elementwise
equal; in particular equal boxes with different `classId` arrays compare
unequal.  The code refutes it: with equal boxes, empty `poly` arrays and
`class_id = [0]` versus `[1]`, `__eq__` returns `True` (the `any`
aggregate accepts the truthiness of `other.class_id`), and with `poly`
absent it raises `TypeError` (`len(None)`) instead of returning a
boolean. -/
theorem claim_C1_detections_eq_code_bug :
    detEq ⟨[(0, 0, 1, 1)], some [], none, some [0], none, none, none⟩
          ⟨[(0, 0, 1, 1)], some [], none, some [1], none, none, none⟩ = .ok true ∧
    detEq ⟨[(0, 0, 1, 1)], none, none, some [0], none, none, none⟩
          ⟨[(0, 0, 1, 1)], none, none, some [1], none, none, none⟩ = .error .typeError :=
  ⟨rfl, rfl⟩

/-- **C4** (code_bug).  The claim: `xyxyn2xyxy (xyxy2xyxyn B S) S` equals
`B` up to one rounding unit per coordinate.  The code refutes it: for
`B = (10, 20, 30, 40)` and `S = (height 100, width 200)` the round trip
yields `(10, 20, 40, 15)` — `xyxyn2xyxy` reuses component 1 for the third
output and component 2 for the fourth, so the last two coordinates are off
by 10 and 25, far beyond one rounding unit. -/
theorem claim_C4_normalized_roundtrip_code_bug :
    xyxyn2xyxy (xyxy2xyxyn (10, 20, 30, 40) (100, 200)) (100, 200) = (10, 20, 40, 15) ∧
    ¬ (|(40 : ℤ) - 30| ≤ 1) ∧ ¬ (|(15 : ℤ) - 40| ≤ 1) := by
  refine ⟨?_, by decide, by decide⟩
  norm_num [xyxy2xyxyn, xyxyn2xyxy, pyInt]

/-- **C5** (code_bug).  The claim: for a valid 6-hex-digit code,
`Colors.hex_to_rgb(hex).to_hex()` returns the normalized hex code without
raising.  The code refutes it: parsing `"#A351FB"` succeeds with
`(163, 81, 251)`, but `to_hex` evaluates the non-existent attribute
`self.rgb` (and `rgb_to_hex` is a zero-argument staticmethod whose body
reads `self`), so every `to_hex` call raises `AttributeError`. -/
theorem claim_C5_hex_roundtrip_code_bug :
    Colors.hex_to_rgb "#A351FB" = .ok ⟨163, 81, 251⟩ ∧
    (Colors.hex_to_rgb "#A351FB").bind Colors.to_hex = .error .attributeError ∧
    ∀ c : Colors, c.to_hex = .error .attributeError :=
  ⟨rfl, rfl, fun _ => rfl⟩

/-- **C8** (confirmed).  `xyxy2xywh` computes
`(x1 + w/2, y1 + h/2, w, h)` with `w = x2 - x1`, `h = y2 - y1`, and
`xywh2xyxy (xyxy2xywh B) = B` exactly for every box of rational
coordinates. -/
theorem claim_C8_center_form_roundtrip (b : Box4) :
    xyxy2xywh b = (b.1 + (b.2.2.1 - b.1) / 2, b.2.1 + (b.2.2.2 - b.2.1) / 2,
                   b.2.2.1 - b.1, b.2.2.2 - b.2.1) ∧
    xywh2xyxy (xyxy2xywh b) = b := by
  obtain ⟨x1, y1, x2, y2⟩ := b
  refine ⟨rfl, ?_⟩
  simp only [xyxy2xywh, xywh2xyxy, Prod.mk.injEq]
  refine ⟨by ring, by ring, by ring, by ring⟩

/-- **C10** (confirmed).  `add_color` applied to a Python list — e.g.
`[255, 0, 0]` — leaves the palette unchanged and only logs a warning,
whatever the list holds; an entry is appended only for a tuple, a string,
or a `Colors` instance. -/
theorem claim_C10_list_color_is_noop (cs : List Colors) (l : List ColorInput) :
    add_color cs (.list l) = .ok (cs, true) ∧
    ∀ inp res, add_color cs inp = .ok res → res.1 ≠ cs → inp.colorLike := by
  refine ⟨rfl, ?_⟩
  intro inp res h hne
  cases inp with
  | rgb r g b => trivial
  | hex s => trivial
  | col c => trivial
  | list es => simp only [add_color, Except.ok.injEq] at h; simp [← h] at hne
  | intVal n => simp only [add_color, Except.ok.injEq] at h; simp [← h] at hne
  | other => simp only [add_color, Except.ok.injEq] at h; simp [← h] at hne

/-- Witness for C10 at concrete inputs: the list `[255, 0, 0]` is a no-op
on the empty palette, and a tuple input is color-like. -/
theorem claim_C10_list_color_is_noop_witness :
    add_color [] (.list [.intVal 255, .intVal 0, .intVal 0]) = .ok ([], true) ∧
    ColorInput.colorLike (.rgb 255 0 0) :=
  ⟨(claim_C10_list_color_is_noop [] [.intVal 255, .intVal 0, .intVal 0]).1,
   (claim_C10_list_color_is_noop [] []).2 (.rgb 255 0 0) ([⟨255, 0, 0⟩], false) rfl
     (by decide)⟩

/-- **C7** (confirmed).  On a fresh `ColorPalette` (45 default colors)
`get_color_by_index i` fails with the index error exactly when `i < 0` or
`i ≥ 45`; after `override_color([C])` the palette is `C` prepended to the
old list, so index 0 holds `C` and index 1 holds the previous index-0
color `(255, 0, 0)`. -/
theorem claim_C7_palette_bounds_and_override :
    ColorPalette.init.length = 45 ∧
    (∀ i : Int, get_color_by_index ColorPalette.init i = .error .indexError ↔
      i < 0 ∨ 45 ≤ i) ∧
    (∀ C : Colors,
      override_color ColorPalette.init [.col C] = .ok (C :: ColorPalette.init) ∧
      get_color_by_index (C :: ColorPalette.init) 0 = .ok C ∧
      get_color_by_index (C :: ColorPalette.init) 1 = .ok ⟨255, 0, 0⟩ ∧
      get_color_by_index ColorPalette.init 0 = .ok ⟨255, 0, 0⟩) := by
  have h45 : ColorPalette.init.length = 45 := rfl
  refine ⟨h45, ?_, ?_⟩
  · intro i
    unfold get_color_by_index
    rw [h45]
    constructor
    · intro h
      by_contra hc
      push_neg at hc
      obtain ⟨h0, h1⟩ := hc
      rw [if_neg] at h
      · cases hq : ColorPalette.init.get? i.toNat with
        | none =>
          rw [List.get?_eq_none] at hq
          have : i.toNat < 45 := by omega
          omega
        | some c => rw [hq] at h; exact Except.noConfusion h
      · push_neg
        exact ⟨h0, h1⟩
    · intro h
      have h' : i < 0 ∨ ((45 : Nat) : Int) ≤ i := by exact_mod_cast h
      rw [if_pos h']
  · intro C
    refine ⟨rfl, rfl, rfl, rfl⟩

/-- **C9** (confirmed).  `poly2xyxy` of a non-empty vertex list is the
bounding box `(min x, min y, max x, max y)` — each bound is attained by a
vertex and bounds every vertex — the example
`[(1,1),(3,1),(3,4),(1,4)]` gives `(1,1,3,4)`, and the empty vertex list
fails (the empty-sequence reduction has no value). -/
theorem claim_C9_poly_to_box (p : List (ℤ × ℤ)) (h : p ≠ []) :
    poly2xyxy ([] : List (ℤ × ℤ)) = none ∧
    poly2xyxy [(1, 1), (3, 1), (3, 4), (1, 4)] = some (1, 1, 3, 4) ∧
    ∃ a b c d, poly2xyxy p = some (a, b, c, d) ∧
      a ∈ p.map Prod.fst ∧ b ∈ p.map Prod.snd ∧
      c ∈ p.map Prod.fst ∧ d ∈ p.map Prod.snd ∧
      ∀ v ∈ p, a ≤ v.1 ∧ b ≤ v.2 ∧ v.1 ≤ c ∧ v.2 ≤ d := by
  refine ⟨rfl, rfl, ?_⟩
  haveI : Std.Antisymm ((· : ℤ) ≤ ·) := ⟨fun h1 h2 => Int.le_antisymm h1 h2⟩
  have hx : p.map Prod.fst ≠ [] := by simpa using h
  have hy : p.map Prod.snd ≠ [] := by simpa using h
  cases hm1 : (p.map Prod.fst).min? with
  | none => exact absurd (List.min?_eq_none_iff.mp hm1) hx
  | some a =>
  cases hm2 : (p.map Prod.snd).min? with
  | none => exact absurd (List.min?_eq_none_iff.mp hm2) hy
  | some b =>
  cases hm3 : (p.map Prod.fst).max? with
  | none => exact absurd (List.max?_eq_none_iff.mp hm3) hx
  | some c =>
  cases hm4 : (p.map Prod.snd).max? with
  | none => exact absurd (List.max?_eq_none_iff.mp hm4) hy
  | some d =>
  have p1 := (List.min?_eq_some_iff Int.le_refl (fun x y => min_choice x y)
    (fun x y z => le_min_iff)).mp hm1
  have p2 := (List.min?_eq_some_iff Int.le_refl (fun x y => min_choice x y)
    (fun x y z => le_min_iff)).mp hm2
  have p3 := (List.max?_eq_some_iff Int.le_refl (fun x y => max_choice x y)
    (fun x y z => max_le_iff)).mp hm3
  have p4 := (List.max?_eq_some_iff Int.le_refl (fun x y => max_choice x y)
    (fun x y z => max_le_iff)).mp hm4
  refine ⟨a, b, c, d, ?_, p1.1, p2.1, p3.1, p4.1, ?_⟩
  · unfold poly2xyxy
    rw [hm1, hm2, hm3, hm4]
  · intro v hv
    exact ⟨p1.2 v.1 (List.mem_map_of_mem Prod.fst hv),
           p2.2 v.2 (List.mem_map_of_mem Prod.snd hv),
           p3.2 v.1 (List.mem_map_of_mem Prod.fst hv),
           p4.2 v.2 (List.mem_map_of_mem Prod.snd hv)⟩

/-- Witness for C9 at the spec's example polygon. -/
theorem claim_C9_poly_to_box_witness :
    ([(1, 1), (3, 1), (3, 4), (1, 4)] : List (ℤ × ℤ)) ≠ [] ∧
    (poly2xyxy ([] : List (ℤ × ℤ)) = none ∧
     poly2xyxy [(1, 1), (3, 1), (3, 4), (1, 4)] = some (1, 1, 3, 4) ∧
     ∃ a b c d,
       poly2xyxy ([(1, 1), (3, 1), (3, 4), (1, 4)] : List (ℤ × ℤ)) = some (a, b, c, d) ∧
       a ∈ ([(1, 1), (3, 1), (3, 4), (1, 4)] : List (ℤ × ℤ)).map Prod.fst ∧
       b ∈ ([(1, 1), (3, 1), (3, 4), (1, 4)] : List (ℤ × ℤ)).map Prod.snd ∧
       c ∈ ([(1, 1), (3, 1), (3, 4), (1, 4)] : List (ℤ × ℤ)).map Prod.fst ∧
       d ∈ ([(1, 1), (3, 1), (3, 4), (1, 4)] : List (ℤ × ℤ)).map Prod.snd ∧
       ∀ v ∈ ([(1, 1), (3, 1), (3, 4), (1, 4)] : List (ℤ × ℤ)),
         a ≤ v.1 ∧ b ≤ v.2 ∧ v.1 ≤ c ∧ v.2 ≤ d) :=
  ⟨by decide, claim_C9_poly_to_box [(1, 1), (3, 1), (3, 4), (1, 4)] (by decide)⟩

/-- Row selection succeeds when every index is in range, keeps the length
of the index list, and places the row at `index[k]` at position `k`. -/
theorem selectRows_spec {α : Type} (l : List α) (I : List Nat)
    (h : ∀ i ∈ I, i < l.length) :
    ∃ r, selectRows l I = some r ∧ r.length = I.length ∧
      ∀ k i, I.get? k = some i → r.get? k = l.get? i := by
  induction I with
  | nil =>
    refine ⟨[], rfl, rfl, ?_⟩
    intro k i hk
    simp at hk
  | cons j js ih =>
    have hj : j < l.length := h j (List.mem_cons_self j js)
    obtain ⟨r, hr, hrl, hrg⟩ := ih (fun i hi => h i (List.mem_cons_of_mem _ hi))
    refine ⟨l.get ⟨j, hj⟩ :: r, ?_, by simp [hrl], ?_⟩
    · simp [selectRows, List.getElem?_eq_getElem hj, hr]
    · intro k i hk
      cases k with
      | zero =>
        simp only [List.get?_cons_zero, Option.some.injEq] at hk
        subst hk
        simp [List.get?_eq_get hj]
      | succ k' =>
        simp only [List.get?_cons_succ] at hk ⊢
        exact hrg k' i hk

/-- The optional-attribute selection of `__getitem__` satisfies
`RowSelected` whenever the attribute, if present, has the stated length
and every index is below it. -/
theorem selOpt_spec {α : Type} (o : Option (List α)) (I : List Nat) (n : Nat)
    (hlen : optLenOk o n = true) (hI : ∀ i ∈ I, i < n) :
    ∃ r, selOpt o I = some r ∧ RowSelected o r I := by
  cases o with
  | none =>
    refine ⟨none, rfl, fun _ => rfl, ?_⟩
    intro l hl
    exact Option.noConfusion hl
  | some l =>
    have hn : l.length = n := by simpa [optLenOk] using hlen
    obtain ⟨r, hr, hrl, hrg⟩ := selectRows_spec l I (by rw [hn]; exact hI)
    refine ⟨some r, by simp [selOpt, hr], ?_, ?_⟩
    · intro h; exact Option.noConfusion h
    · intro l' hl'
      cases hl'
      exact ⟨r, rfl, hrl, hrg⟩

/-- **C6** (confirmed).  For a `Detections` satisfying the length
invariant and an index list `I` with every entry in range, `d[I]` is a new
`Detections` of length `len(I)`: boxes and every present attribute are
row-selected in the order of `I` (position `k` holds the original row
`I[k]`), absent attributes remain absent. -/
theorem claim_C6_getitem_selects_rows (d : Detections) (I : List Nat)
    (hinv : d.invariant = true) (hI : ∀ i ∈ I, i < d.xyxy.length) :
    ∃ d', d.getItem I = some d' ∧
      d'.xyxy.length = I.length ∧
      (∀ k i, I.get? k = some i → d'.xyxy.get? k = d.xyxy.get? i) ∧
      RowSelected d.poly d'.poly I ∧
      RowSelected d.confidence d'.confidence I ∧
      RowSelected d.class_id d'.class_id I ∧
      RowSelected d.tracker_id d'.tracker_id I ∧
      RowSelected d.object_length d'.object_length I ∧
      RowSelected d.object_area d'.object_area I := by
  simp only [Detections.invariant, Bool.and_eq_true] at hinv
  obtain ⟨⟨⟨⟨⟨h1, h2⟩, h3⟩, h4⟩, h5⟩, h6⟩ := hinv
  obtain ⟨r0, hr0, hl0, hg0⟩ := selectRows_spec d.xyxy I hI
  obtain ⟨r1, hr1, hs1⟩ := selOpt_spec d.poly I d.xyxy.length h1 hI
  obtain ⟨r2, hr2, hs2⟩ := selOpt_spec d.confidence I d.xyxy.length h2 hI
  obtain ⟨r3, hr3, hs3⟩ := selOpt_spec d.class_id I d.xyxy.length h3 hI
  obtain ⟨r4, hr4, hs4⟩ := selOpt_spec d.tracker_id I d.xyxy.length h4 hI
  obtain ⟨r5, hr5, hs5⟩ := selOpt_spec d.object_length I d.xyxy.length h5 hI
  obtain ⟨r6, hr6, hs6⟩ := selOpt_spec d.object_area I d.xyxy.length h6 hI
  refine ⟨⟨r0, r1, r2, r3, r4, r5, r6⟩, ?_, hl0, hg0, hs1, hs2, hs3, hs4, hs5, hs6⟩
  simp [Detections.getItem, hr0, hr1, hr2, hr3, hr4, hr5, hr6]

/-- Witness for C6: three boxes with class ids `[5, 6, 7]`, selected by
`I = [2, 0]`. -/
theorem claim_C6_getitem_selects_rows_witness :
    sampleDet.invariant = true ∧
    (∀ i ∈ [2, 0], i < sampleDet.xyxy.length) ∧
    (∃ d', sampleDet.getItem [2, 0] = some d' ∧
      d'.xyxy.length = ([2, 0] : List Nat).length ∧
      (∀ k i, ([2, 0] : List Nat).get? k = some i →
        d'.xyxy.get? k = sampleDet.xyxy.get? i) ∧
      RowSelected sampleDet.poly d'.poly [2, 0] ∧
      RowSelected sampleDet.confidence d'.confidence [2, 0] ∧
      RowSelected sampleDet.class_id d'.class_id [2, 0] ∧
      RowSelected sampleDet.tracker_id d'.tracker_id [2, 0] ∧
      RowSelected sampleDet.object_length d'.object_length [2, 0] ∧
      RowSelected sampleDet.object_area d'.object_area [2, 0]) :=
  ⟨by decide, by decide,
   claim_C6_getitem_selects_rows sampleDet [2, 0] (by decide) (by decide)⟩



/-- Palette lookup succeeds for every in-range index. -/
theorem get_color_by_index_ok (cs : List Colors) (c : Int)
    (h0 : 0 ≤ c) (h1 : c < cs.length) :
    ∃ col, get_color_by_index cs c = .ok col := by
  unfold get_color_by_index
  rw [if_neg (by push_neg; exact ⟨h0, h1⟩)]
  cases hq : cs.get? c.toNat with
  | none =>
    rw [List.get?_eq_none] at hq
    omega
  | some col => exact ⟨col, rfl⟩

/-- When every record's lookup key is present and within the palette, the
annotate loop draws one outline rectangle per record, in order, without
hitting the error branch. -/
theorem annotateLoop_all_ok (cs : List Colors) (cls : List Int) (txt : Option Colors) :
    ∀ (boxes : List BoxI) (i : Nat),
    (∀ j, j < boxes.length → ∃ c, cls.get? (i + j) = some c ∧ 0 ≤ c ∧ c < cs.length) →
    ∃ evs, annotateLoop cs (some cls) none txt i boxes = (evs, false) ∧
      evs.length = boxes.length ∧
      ∀ k b, boxes.get? k = some b → ∀ c, cls.get? (i + k) = some c →
        ∃ col, get_color_by_index cs c = .ok col ∧ evs.get? k = some (.rect b col) := by
  intro boxes
  induction boxes with
  | nil =>
    intro i h
    refine ⟨[], rfl, rfl, ?_⟩
    intro k b hk
    simp at hk
  | cons b rest ih =>
    intro i h
    obtain ⟨c, hc, hc0, hc1⟩ := h 0 (by simp)
    rw [Nat.add_zero] at hc
    obtain ⟨col, hcol⟩ := get_color_by_index_ok cs c hc0 hc1
    have hstep : recordStep cs (some cls) none txt i b = .ok [.rect b col] := by
      have hc2 : cls[i]? = some c := by rwa [List.get?_eq_getElem?] at hc
      simp [recordStep, hc2, hcol, box_label_events]
    obtain ⟨evs, hloop, hlen, hget⟩ := ih (i + 1) (fun j hj => by
      have hh := h (j + 1) (by simpa using Nat.succ_lt_succ hj)
      rwa [show i + (j + 1) = (i + 1) + j by omega] at hh)
    refine ⟨.rect b col :: evs, ?_, by simp [hlen], ?_⟩
    · simp [annotateLoop, hstep, hloop]
    · intro k b' hk c' hc'
      cases k with
      | zero =>
        simp only [List.get?_cons_zero, Option.some.injEq] at hk
        subst hk
        rw [Nat.add_zero, hc] at hc'
        injection hc' with h'
        subst h'
        exact ⟨col, hcol, by simp⟩
      | succ k' =>
        simp only [List.get?_cons_succ] at hk ⊢
        rw [show i + (k' + 1) = (i + 1) + k' by omega] at hc'
        exact hget k' b' hk c' hc'

/-- **C2** (confirmed).  `annotate` on `N` detections with a
caller-supplied color *list* of length `k < N` (class ids all within the
default palette) logs the short-colors warning, raises nothing, and still
issues a box draw for all `N` records, each record's color resolved by
palette lookup at its lookup key. -/
theorem claim_C2_short_colors_warn_and_draw (boxes : List BoxI) (cls : List Int) (l : List ColorInput)
    (txt : Option Colors)
    (hlen : cls.length = boxes.length)
    (hrange : ∀ c ∈ cls, 0 ≤ c ∧ c < 45)
    (hshort : l.length < boxes.length) :
    ∃ r, annotate ⟨boxes, none, none, some cls, none, none, none⟩ none
        (some (.list l)) txt = .ok r ∧
      r.shortWarned = true ∧ r.loopErrorLogged = false ∧
      r.events.length = boxes.length ∧
      ∀ k b c, boxes.get? k = some b → cls.get? k = some c →
        ∃ col, get_color_by_index ColorPalette.init c = .ok col ∧
          r.events.get? k = some (.rect b col) := by
  have hpal : ColorPalette.init.length = 45 := rfl
  obtain ⟨evs, hloop, hlen2, hget⟩ := annotateLoop_all_ok ColorPalette.init cls txt boxes 0
    (fun j hj => by
      have hjc : j < cls.length := by omega
      obtain ⟨cj, hcj⟩ : ∃ cj, cls.get? j = some cj :=
        ⟨cls.get ⟨j, hjc⟩, List.get?_eq_get hjc⟩
      have hmem : cj ∈ cls := by
        have := List.get?_mem hcj
        exact this
      obtain ⟨ha, hb⟩ := hrange cj hmem
      refine ⟨cj, by rwa [Nat.zero_add], ha, by rw [hpal]; exact_mod_cast hb⟩)
  refine ⟨⟨true, true, evs, false⟩, ?_, rfl, rfl, hlen2, ?_⟩
  · have hred : annotate ⟨boxes, none, none, some cls, none, none, none⟩ none
        (some (.list l)) txt =
        (match annotateLoop ColorPalette.init (some cls) none txt 0 boxes with
         | (evs, err) =>
            Except.ok ⟨decide (l.length < boxes.length), true, evs, err⟩) := rfl
    rw [hred, hloop]
    simp only [decide_eq_true hshort]
  · intro k b c hk hc
    exact hget k b hk c (by rwa [Nat.zero_add])


/-- Witness for C2 at the spec scenario: 3 boxes, `classId = [0,0,1]`,
two caller colors. -/
theorem claim_C2_short_colors_warn_and_draw_witness :
    c2Cls.length = c2Boxes.length ∧
    (∀ c ∈ c2Cls, 0 ≤ c ∧ c < 45) ∧
    c2Colors.length < c2Boxes.length ∧
    (∃ r, annotate ⟨c2Boxes, none, none, some c2Cls, none, none, none⟩ none
        (some (.list c2Colors)) none = .ok r ∧
      r.shortWarned = true ∧ r.loopErrorLogged = false ∧
      r.events.length = c2Boxes.length ∧
      ∀ k b c, c2Boxes.get? k = some b → c2Cls.get? k = some c →
        ∃ col, get_color_by_index ColorPalette.init c = .ok col ∧
          r.events.get? k = some (.rect b col)) :=
  ⟨by decide, by decide, by decide,
   claim_C2_short_colors_warn_and_draw c2Boxes c2Cls c2Colors none
     (by decide) (by decide) (by decide)⟩



/-- **C3 counterexample**.  The claim says a failure at record `i` skips
only record `i` and later records are still drawn.  Concretely: two
records with class ids `[100, 0]`; record 0's palette lookup raises, the
exception is caught *outside* the loop, and the call returns with *no*
events — even though record 1 on its own would succeed (second
conjunct).  So record 1 is not drawn, refuting the claim. -/
theorem claim_C3_failure_not_isolated_counterexample :
    annotate ⟨[(0, 0, 5, 5), (1, 1, 6, 6)], none, none, some [100, 0], none, none, none⟩
      none none none = .ok ⟨false, false, [], true⟩ ∧
    recordStep ColorPalette.init (some [100, 0]) none none 1 (1, 1, 6, 6)
      = .ok [.rect (1, 1, 6, 6) ⟨255, 0, 0⟩] :=
  ⟨rfl, rfl⟩

/-- The annotate loop processes records in order and, because the
`try/except` sits outside the loop, the first failing record discards all
remaining records: the output equals the output on the prefix before the
failure, plus the logged-error flag. -/
theorem annotateLoop_stops_at_first_failure (cs : List Colors)
    (cls : Option (List Int)) (labels : Option (List String)) (txt : Option Colors) :
    ∀ (boxes : List BoxI) (i0 i : Nat),
      i < boxes.length →
      (∀ j b, j < i → boxes.get? j = some b →
        stepOk (recordStep cs cls labels txt (i0 + j) b) = true) →
      (∀ b, boxes.get? i = some b →
        stepOk (recordStep cs cls labels txt (i0 + i) b) = false) →
      annotateLoop cs cls labels txt i0 boxes
        = ((annotateLoop cs cls labels txt i0 (boxes.take i)).1, true) ∧
      (annotateLoop cs cls labels txt i0 (boxes.take i)).2 = false := by
  intro boxes
  induction boxes with
  | nil =>
    intro i0 i hi
    simp at hi
  | cons b rest ih =>
    intro i0 i hi hok hfail
    cases i with
    | zero =>
      have hf := hfail b rfl
      rw [Nat.add_zero] at hf
      cases hs : recordStep cs cls labels txt i0 b with
      | ok evs => rw [hs] at hf; simp [stepOk] at hf
      | error e =>
        refine ⟨?_, rfl⟩
        simp [annotateLoop, hs]
    | succ i' =>
      have hok0 := hok 0 b (Nat.succ_pos i') rfl
      rw [Nat.add_zero] at hok0
      cases hs : recordStep cs cls labels txt i0 b with
      | error e => rw [hs] at hok0; simp [stepOk] at hok0
      | ok evs =>
        have hi' : i' < rest.length := by simpa using hi
        obtain ⟨h1, h2⟩ := ih (i0 + 1) i' hi'
          (fun j bj hj hbj => by
            have hh := hok (j + 1) bj (Nat.succ_lt_succ hj) (by simpa using hbj)
            rwa [show i0 + (j + 1) = (i0 + 1) + j by omega] at hh)
          (fun bj hbj => by
            have hh := hfail bj (by simpa using hbj)
            rwa [show i0 + (i' + 1) = (i0 + 1) + i' by omega] at hh)
        refine ⟨?_, ?_⟩
        · simp [annotateLoop, hs, List.take_succ_cons, h1, h2]
        · simp [annotateLoop, hs, List.take_succ_cons, h2]

/-- **C3** (corrected).  Amended claim: an unexpected failure while
processing record `i` is caught and logged and `annotate` itself returns
normally, and the records *before* `i` are still drawn — but record `i`
and every record after it are skipped, because the exception is caught at
the batch boundary, not per record. -/
theorem claim_C3_failure_aborts_remaining (d : Detections) (labels : Option (List String))
    (txt : Option Colors) (i : Nat)
    (hi : i < d.xyxy.length)
    (hok : ∀ j b, j < i → d.xyxy.get? j = some b →
      stepOk (recordStep ColorPalette.init d.class_id labels txt j b) = true)
    (hfail : ∀ b, d.xyxy.get? i = some b →
      stepOk (recordStep ColorPalette.init d.class_id labels txt i b) = false) :
    ∃ evs, annotate d labels none txt = .ok ⟨false, false, evs, true⟩ ∧
      annotateLoop ColorPalette.init d.class_id labels txt 0 (d.xyxy.take i)
        = (evs, false) := by
  obtain ⟨h1, h2⟩ := annotateLoop_stops_at_first_failure ColorPalette.init d.class_id
    labels txt d.xyxy 0 i hi
    (fun j b hj hb => by have := hok j b hj hb; rwa [Nat.zero_add])
    (fun b hb => by have := hfail b hb; rwa [Nat.zero_add])
  refine ⟨(annotateLoop ColorPalette.init d.class_id labels txt 0 (d.xyxy.take i)).1,
    ?_, ?_⟩
  · have hred : annotate d labels none txt =
        (match annotateLoop ColorPalette.init d.class_id labels txt 0 d.xyxy with
         | (evs, err) => Except.ok ⟨false, false, evs, err⟩) := rfl
    rw [hred, h1]
  · rw [← h2]

/-- Witness for the amended C3: three records with class ids
`[0, 100, 0]`; record 1 fails, record 0's rectangle is the only event. -/
theorem claim_C3_failure_aborts_remaining_witness :
    1 < c3Det.xyxy.length ∧
    (∀ j b, j < 1 → c3Det.xyxy.get? j = some b →
      stepOk (recordStep ColorPalette.init c3Det.class_id none none j b) = true) ∧
    (∀ b, c3Det.xyxy.get? 1 = some b →
      stepOk (recordStep ColorPalette.init c3Det.class_id none none 1 b) = false) ∧
    (∃ evs, annotate c3Det none none none = .ok ⟨false, false, evs, true⟩ ∧
      annotateLoop ColorPalette.init c3Det.class_id none none 0 (c3Det.xyxy.take 1)
        = (evs, false)) := by
  have hok : ∀ j b, j < 1 → c3Det.xyxy.get? j = some b →
      stepOk (recordStep ColorPalette.init c3Det.class_id none none j b) = true := by
    intro j b hj hb
    interval_cases j
    rw [show c3Det.xyxy.get? 0 = some (0, 0, 5, 5) from rfl] at hb
    injection hb with hb2
    subst hb2
    decide
  have hfail : ∀ b, c3Det.xyxy.get? 1 = some b →
      stepOk (recordStep ColorPalette.init c3Det.class_id none none 1 b) = false := by
    intro b hb
    rw [show c3Det.xyxy.get? 1 = some (1, 1, 6, 6) from rfl] at hb
    injection hb with hb2
    subst hb2
    decide
  exact ⟨by decide, hok, hfail,
    claim_C3_failure_aborts_remaining c3Det none none 1 (by decide) hok hfail⟩


end VisionNest
